import Mathlib

/-!
Verification of the microapp request-lifecycle core.

The Go sources are shallowly embedded:
* `context/executionContextImpl` (execution-context tree, structured logging)
* `app.go` (lifecycle controller: bootstrap, start, stop, logging middleware)

Randomness (UUID generation) and environment outcomes (listener results,
database-driver results) are passed in as explicit parameters; loggers are
modelled as their accumulated field lists; emitted log lines are returned as
values.
-/

namespace Microapp

/-- A zerolog logger, modelled by its accumulated fixed `Str` fields, in the
order they were added via `With().Str(...)`. -/
structure Logger where
  fields : List (String × String)
  deriving Repr, DecidableEq

/-- `logger.With().Str(k, v).Logger()`: append one fixed string field. -/
def Logger.withStr (l : Logger) (k v : String) : Logger :=
  ⟨l.fields ++ [(k, v)]⟩

/-- The loop `for k, v := range fields { loggerWith = loggerWith.Str(k, v) }`,
with the Go map's (unspecified) iteration order made explicit as a list. -/
def Logger.addStrFields (l : Logger) (fs : List (String × String)) : Logger :=
  fs.foldl (fun acc kv => acc.withStr kv.1 kv.2) l

/-- `strings.TrimSpace`: drop whitespace from both ends (modelled
structurally over the character list so that it evaluates). -/
def trimSpace (s : String) : String :=
  ⟨((s.data.dropWhile Char.isWhitespace).reverse.dropWhile
      Char.isWhitespace).reverse⟩

/-- `security.JwtToken`, restricted to the fields this core reads. -/
structure JwtToken where
  tenantID : String
  userID : String
  userName : String
  tenantName : String
  displayName : String
  admin : Bool
  deriving Repr, DecidableEq

/-- `repository.UnitOfWork` is opaque to this core; we model a handle by an
identity. -/
abbrev UnitOfWork : Type := Nat

/-- `executionContextImpl` from the context package. A `*security.JwtToken`
and a `*repository.UnitOfWork` are nilable pointers, hence `Option`. -/
structure ExecutionContextImpl where
  CorrelationID : String
  UOW : Option UnitOfWork
  Token : Option JwtToken
  Action : String
  logger : Logger
  deriving Repr, DecidableEq

/-- `NewExecutionContext(token, correlationID, action, logger)`. The call
`uuid.NewV4().String()` is externalized as the `freshUUID` parameter. -/
def NewExecutionContext (token : Option JwtToken) (correlationID action : String)
    (logger : Logger) (freshUUID : String) : ExecutionContextImpl :=
  let cid := if trimSpace correlationID = "" then freshUUID else correlationID
  let executionCtxLogger :=
    match token with
    | some t =>
        ((((((logger.withStr "tenantId" t.tenantID).withStr
          "userId" t.userID).withStr
          "username" t.userName).withStr
          "tenantName" t.tenantName).withStr
          "userDisplayName" t.displayName).withStr
          "action" action).withStr
          "correlationId" cid
    | none =>
        (logger.withStr "action" action).withStr "correlationId" cid
  { CorrelationID := cid, UOW := none, Token := token, Action := action,
    logger := executionCtxLogger }

/-- `SubContext(additionalFields)`. -/
def ExecutionContextImpl.SubContext (c : ExecutionContextImpl)
    (additionalFields : List (String × String)) : ExecutionContextImpl :=
  { CorrelationID := c.CorrelationID, UOW := c.UOW, Token := c.Token,
    Action := c.Action, logger := c.logger.addStrFields additionalFields }

/-- `SubContextWithToken(token, additionalFields)`. -/
def ExecutionContextImpl.SubContextWithToken (c : ExecutionContextImpl)
    (token : Option JwtToken) (additionalFields : List (String × String)) :
    ExecutionContextImpl :=
  { CorrelationID := c.CorrelationID, UOW := c.UOW, Token := token,
    Action := c.Action, logger := c.logger.addStrFields additionalFields }

/-- `SubContextWithTokenAndUoW(token, uow, additionalFields)`. -/
def ExecutionContextImpl.SubContextWithTokenAndUoW (c : ExecutionContextImpl)
    (token : Option JwtToken) (uow : Option UnitOfWork)
    (additionalFields : List (String × String)) : ExecutionContextImpl :=
  { CorrelationID := c.CorrelationID, UOW := uow, Token := token,
    Action := c.Action, logger := c.logger.addStrFields additionalFields }

/-- `SubContextWithUoW(uow, additionalFields)`. -/
def ExecutionContextImpl.SubContextWithUoW (c : ExecutionContextImpl)
    (uow : Option UnitOfWork) (additionalFields : List (String × String)) :
    ExecutionContextImpl :=
  { CorrelationID := c.CorrelationID, UOW := uow, Token := c.Token,
    Action := c.Action, logger := c.logger.addStrFields additionalFields }

/-- Pure value of `AddLoggerStrFields(strFields)` on one context node (the
heap model below places it at an address). -/
def ExecutionContextImpl.addLoggerStrFields (c : ExecutionContextImpl)
    (strFields : List (String × String)) : ExecutionContextImpl :=
  { c with logger := c.logger.addStrFields strFields }

/-- Pure value of `SetUOW(uow)` on one context node. -/
def ExecutionContextImpl.setUOW (c : ExecutionContextImpl)
    (uow : Option UnitOfWork) : ExecutionContextImpl :=
  { c with UOW := uow }

/-- One derivation step: which of the four `SubContext*` methods is called,
with its arguments. -/
inductive DeriveOp where
  | sub (fs : List (String × String))
  | subWithToken (token : Option JwtToken) (fs : List (String × String))
  | subWithTokenAndUoW (token : Option JwtToken) (uow : Option UnitOfWork)
      (fs : List (String × String))
  | subWithUoW (uow : Option UnitOfWork) (fs : List (String × String))
  deriving Repr

/-- Apply one derivation step. -/
def applyDerive (c : ExecutionContextImpl) : DeriveOp → ExecutionContextImpl
  | .sub fs => c.SubContext fs
  | .subWithToken t fs => c.SubContextWithToken t fs
  | .subWithTokenAndUoW t u fs => c.SubContextWithTokenAndUoW t u fs
  | .subWithUoW u fs => c.SubContextWithUoW u fs

/-- A node of the derivation tree is reached from the root by a path of
derivation steps. -/
def deriveChain (c : ExecutionContextImpl) (ops : List DeriveOp) :
    ExecutionContextImpl :=
  ops.foldl applyDerive c

theorem applyDerive_CorrelationID (c : ExecutionContextImpl) (op : DeriveOp) :
    (applyDerive c op).CorrelationID = c.CorrelationID := by
  cases op <;> rfl

theorem applyDerive_Action (c : ExecutionContextImpl) (op : DeriveOp) :
    (applyDerive c op).Action = c.Action := by
  cases op <;> rfl

theorem deriveChain_CorrelationID_Action (c : ExecutionContextImpl)
    (ops : List DeriveOp) :
    (deriveChain c ops).CorrelationID = c.CorrelationID ∧
      (deriveChain c ops).Action = c.Action := by
  induction ops generalizing c with
  | nil => exact ⟨rfl, rfl⟩
  | cons op rest ih =>
      have h := ih (applyDerive c op)
      exact ⟨h.1.trans (applyDerive_CorrelationID c op),
             h.2.trans (applyDerive_Action c op)⟩

/-- C1: every node of a context tree built by any sequence of the four
derivation operations from a `NewExecutionContext` root carries exactly the
root's `CorrelationID` and `Action`. -/
theorem derivations_preserve_correlationID_and_action
    (token : Option JwtToken) (correlationID action : String) (logger : Logger)
    (freshUUID : String) (ops : List DeriveOp) :
    (deriveChain (NewExecutionContext token correlationID action logger freshUUID)
        ops).CorrelationID =
      (NewExecutionContext token correlationID action logger freshUUID).CorrelationID ∧
    (deriveChain (NewExecutionContext token correlationID action logger freshUUID)
        ops).Action =
      (NewExecutionContext token correlationID action logger freshUUID).Action :=
  deriveChain_CorrelationID_Action _ ops

/-! ### Heap model for in-place mutation

Go contexts are heap-allocated (`&executionContextImpl{...}`) and mutated
through pointers (`AddLoggerStrFields`, `SetUOW` write through the receiver).
We model the heap as a list of allocated context records; an address is an
index, and each `SubContext*` call allocates a fresh record at the end of the
heap, writing nothing through any existing address. -/

abbrev Heap : Type := List ExecutionContextImpl

/-- A `SubContext*` call on the node at `addr`: reads the parent, allocates
the derived record at a fresh address, returns the new heap and the child's
address. Out-of-range addresses cannot arise in Go (a live pointer always
points at an allocated record). -/
def deriveAt (h : Heap) (addr : Nat) (op : DeriveOp) : Heap × Nat :=
  match h[addr]? with
  | some c => (h ++ [applyDerive c op], h.length)
  | none => (h, addr)

/-- Write through the pointer at `addr`, as Go method receivers do. -/
def modifyAt (h : Heap) (addr : Nat)
    (f : ExecutionContextImpl → ExecutionContextImpl) : Heap :=
  match h[addr]? with
  | some c => h.set addr (f c)
  | none => h

/-- `AddLoggerStrFields` called on the node at `addr`. -/
def addLoggerStrFieldsAt (h : Heap) (addr : Nat)
    (fs : List (String × String)) : Heap :=
  modifyAt h addr (fun c => c.addLoggerStrFields fs)

/-- `SetUOW` called on the node at `addr`. -/
def setUOWAt (h : Heap) (addr : Nat) (uow : Option UnitOfWork) : Heap :=
  modifyAt h addr (fun c => c.setUOW uow)

theorem deriveAt_frame (h : Heap) (p : Nat) (hp : p < h.length) (op : DeriveOp)
    (a : Nat) (ha : a < h.length) : (deriveAt h p op).1[a]? = h[a]? := by
  unfold deriveAt
  rw [List.getElem?_eq_getElem hp]
  simp only
  rw [List.getElem?_append, if_pos ha]

theorem deriveAt_fresh (h : Heap) (p : Nat) (hp : p < h.length)
    (op : DeriveOp) : (deriveAt h p op).2 = h.length := by
  unfold deriveAt
  rw [List.getElem?_eq_getElem hp]

theorem modifyAt_frame (h : Heap) (addr : Nat)
    (f : ExecutionContextImpl → ExecutionContextImpl) (a : Nat)
    (ha : a ≠ addr) : (modifyAt h addr f)[a]? = h[a]? := by
  unfold modifyAt
  cases hx : h[addr]? with
  | none => rfl
  | some c => exact List.getElem?_set_ne (fun he => ha he.symm)

/-- C2: derivation never mutates its source, and children are independent.
For a heap `h`, a live parent at address `p` and any ancestor (indeed any
live node) at address `a`: each of the four `SubContext*` operations leaves
every live node — its logger fields, `Token` and `UOW` — exactly as it was
and allocates the child at a fresh address; and `AddLoggerStrFields` or
`SetUOW` invoked on the child afterwards changes no live node either. -/
theorem derive_and_child_mutation_isolated
    (h : Heap) (p : Nat) (hp : p < h.length) (op : DeriveOp)
    (fs : List (String × String)) (u : Option UnitOfWork)
    (a : Nat) (ha : a < h.length) :
    (deriveAt h p op).1[a]? = h[a]? ∧
    (deriveAt h p op).2 = h.length ∧
    (addLoggerStrFieldsAt (deriveAt h p op).1 (deriveAt h p op).2 fs)[a]? = h[a]? ∧
    (setUOWAt (deriveAt h p op).1 (deriveAt h p op).2 u)[a]? = h[a]? := by
  have hfresh := deriveAt_fresh h p hp op
  have hframe := deriveAt_frame h p hp op a ha
  have hne : a ≠ (deriveAt h p op).2 := by
    rw [hfresh]; exact Nat.ne_of_lt ha
  refine ⟨hframe, hfresh, ?_, ?_⟩
  · rw [addLoggerStrFieldsAt, modifyAt_frame _ _ _ _ hne, hframe]
  · rw [setUOWAt, modifyAt_frame _ _ _ _ hne, hframe]

/-- Witness for C2 at a concrete heap: a one-node heap, deriving from node 0
and mutating the child leaves node 0's record untouched. -/
theorem derive_and_child_mutation_isolated_witness :
    ([NewExecutionContext none "c" "act" ⟨[]⟩ "u"] : Heap)[0]? =
        some (NewExecutionContext none "c" "act" ⟨[]⟩ "u") ∧
    (addLoggerStrFieldsAt
        (deriveAt [NewExecutionContext none "c" "act" ⟨[]⟩ "u"] 0
          (.sub [("k", "v")])).1
        (deriveAt [NewExecutionContext none "c" "act" ⟨[]⟩ "u"] 0
          (.sub [("k", "v")])).2 [("m", "w")])[0]? =
      ([NewExecutionContext none "c" "act" ⟨[]⟩ "u"] : Heap)[0]? := by
  refine ⟨rfl, ?_⟩
  exact (derive_and_child_mutation_isolated
    [NewExecutionContext none "c" "act" ⟨[]⟩ "u"] 0 (by decide)
    (.sub [("k", "v")]) [("m", "w")] none 0 (by decide)).2.2.1

/-- C3: `NewExecutionContext`: a blank (empty or whitespace-only) correlation
id is replaced by the freshly generated UUID — non-empty and differing across
two separate calls (which draw distinct UUIDs); with a token the context
logger adds, in exactly this order: tenant id, user id, user name, tenant
name, display name, action, correlation id; with a nil token only action and
correlation id are added. -/
theorem NewExecutionContext_correlation_and_logger_fields
    (token : Option JwtToken) (t : JwtToken)
    (correlationID cid₀ action : String) (logger : Logger)
    (freshUUID fresh₁ fresh₂ : String)
    (hblank : trimSpace correlationID = "") (hne : fresh₁ ≠ fresh₂)
    (h₁ : fresh₁ ≠ "") :
    (NewExecutionContext token correlationID action logger fresh₁).CorrelationID
        = fresh₁ ∧
    (NewExecutionContext token correlationID action logger fresh₁).CorrelationID
        ≠ "" ∧
    (NewExecutionContext token correlationID action logger fresh₁).CorrelationID
        ≠ (NewExecutionContext token correlationID action logger
            fresh₂).CorrelationID ∧
    (NewExecutionContext (some t) cid₀ action logger freshUUID).logger.fields
        = logger.fields ++
          [("tenantId", t.tenantID), ("userId", t.userID),
           ("username", t.userName), ("tenantName", t.tenantName),
           ("userDisplayName", t.displayName), ("action", action),
           ("correlationId",
             (NewExecutionContext (some t) cid₀ action logger
               freshUUID).CorrelationID)] ∧
    (NewExecutionContext none cid₀ action logger freshUUID).logger.fields
        = logger.fields ++
          [("action", action),
           ("correlationId",
             (NewExecutionContext none cid₀ action logger
               freshUUID).CorrelationID)] := by
  refine ⟨?_, ?_, ?_, ?_, ?_⟩
  · simp [NewExecutionContext, hblank]
  · simp [NewExecutionContext, hblank, h₁]
  · simp [NewExecutionContext, hblank, hne]
  · simp [NewExecutionContext, Logger.withStr]
  · simp [NewExecutionContext, Logger.withStr]

/-- Witness for C3 at concrete inputs: a whitespace-only correlation id and
two distinct fresh UUIDs. -/
theorem NewExecutionContext_correlation_and_logger_fields_witness :
    (NewExecutionContext none "  " "act" ⟨[]⟩ "uuid-1").CorrelationID
        = "uuid-1" ∧
    (NewExecutionContext none "  " "act" ⟨[]⟩ "uuid-1").CorrelationID ≠ "" ∧
    (NewExecutionContext none "  " "act" ⟨[]⟩ "uuid-1").CorrelationID
        ≠ (NewExecutionContext none "  " "act" ⟨[]⟩ "uuid-2").CorrelationID ∧
    (NewExecutionContext
        (some ⟨"T", "U", "un", "tn", "dn", false⟩) "c0" "act" ⟨[]⟩
        "u").logger.fields
        = [("tenantId", "T"), ("userId", "U"), ("username", "un"),
           ("tenantName", "tn"), ("userDisplayName", "dn"), ("action", "act"),
           ("correlationId",
             (NewExecutionContext (some ⟨"T", "U", "un", "tn", "dn", false⟩)
               "c0" "act" ⟨[]⟩ "u").CorrelationID)] ∧
    (NewExecutionContext none "c0" "act" ⟨[]⟩ "u").logger.fields
        = [("action", "act"),
           ("correlationId",
             (NewExecutionContext none "c0" "act" ⟨[]⟩ "u").CorrelationID)] := by
  have h := NewExecutionContext_correlation_and_logger_fields
    none ⟨"T", "U", "un", "tn", "dn", false⟩ "  " "c0" "act" ⟨[]⟩
    "u" "uuid-1" "uuid-2" (by decide) (by decide) (by decide)
  simpa using h

/-! ### Error classification and log emission (`LogError`) -/

/-- Modelled from the spec: the `log` package's fixed constants (the package
itself is not among the sources; the values follow the spec's words —
"validation error" event type, "invalid data" event code, generic "invalid
input" message, "unexpected" event type, "unknown" event code, fixed "parse
error" message, "success" event type, "action complete" event code). -/
def EventTypeValidationErr : String := "validation error"

def EventCodeInvalidData : String := "invalid data"

def MessageInvalidInputData : String := "invalid input data"

def EventTypeUnexpectedErr : String := "unexpected error"

def EventCodeUnknown : String := "unknown"

def MessageParseError : String := "parse error"

def EventTypeSuccess : String := "success"

def EventCodeActionComplete : String := "action complete"

/-- The Go type switch in `LogError` inspects the dynamic type of `err`; the
five shapes it distinguishes become constructors, each carrying the payload
the corresponding branch reads plus the `Error()` text zerolog stamps via
`Err(err)`. -/
inductive MicroappError where
  | validationError (text : String)
  | httpResourceNotFound (errorKey resourceName resourceValue text : String)
  | apiClientError (errorCode stackTrace apiURL : String)
      (responseBody : Option String) (statusCode : Option Int) (text : String)
  | unexpectedError (errorCode stackTrace text : String)
  | otherError (text : String)
  deriving Repr, DecidableEq

/-- zerolog severity levels used by this core. -/
inductive Level where
  | debug
  | info
  | warn
  | error
  | fatal
  deriving Repr, DecidableEq

/-- One emitted log line: severity, accumulated fields (fixed logger fields
followed by per-event fields, in the order the calls add them), message. -/
structure LogLine where
  level : Level
  fields : List (String × String)
  message : String
  deriving Repr, DecidableEq

/-- `Logger(eventType, eventCode)`: a logger branched from the context's
logger with the two extra fixed fields. -/
def ExecutionContextImpl.Logger (c : ExecutionContextImpl)
    (eventType eventCode : String) : Microapp.Logger :=
  (c.logger.withStr "eventType" eventType).withStr "eventCode" eventCode

/-- `LogError(err, errorMessage)`: the list of lines the call emits (each
branch of the type switch emits exactly one `Msg` call). -/
def ExecutionContextImpl.LogError (c : ExecutionContextImpl)
    (err : MicroappError) (errorMessage : String) : List LogLine :=
  match err with
  | .validationError text =>
      [{ level := .info,
         fields := (c.Logger EventTypeValidationErr EventCodeInvalidData).fields
           ++ [("error", text)],
         message := MessageInvalidInputData }]
  | .httpResourceNotFound errorKey resourceName resourceValue text =>
      [{ level := .debug,
         fields := (c.Logger EventTypeUnexpectedErr errorKey).fields
           ++ [("error", text), ("resourceName", resourceName),
               ("resourceValue", resourceValue)],
         message := errorMessage }]
  | .apiClientError errorCode stackTrace apiURL responseBody statusCode text =>
      [{ level := .error,
         fields := (c.Logger EventTypeUnexpectedErr errorCode).fields
           ++ [("error", text), ("stack", stackTrace), ("apiURL", apiURL)]
           ++ (match responseBody with
               | some b => [("responseBody", b)]
               | none => [])
           ++ (match statusCode with
               | some n => [("responseStatusCode", toString n)]
               | none => []),
         message := errorMessage }]
  | .unexpectedError errorCode stackTrace text =>
      [{ level := .error,
         fields := (c.Logger EventTypeUnexpectedErr errorCode).fields
           ++ [("error", text), ("stack", stackTrace)],
         message := errorMessage }]
  | .otherError text =>
      [{ level := .error,
         fields := (c.Logger EventTypeUnexpectedErr EventCodeUnknown).fields
           ++ [("error", text)],
         message := errorMessage }]

/-- `LogJSONParseError(err)` delegates to `LogError` with the fixed parse
message. -/
def ExecutionContextImpl.LogJSONParseError (c : ExecutionContextImpl)
    (err : MicroappError) : List LogLine :=
  c.LogError err MessageParseError

/-- C4: for every validation-classified error and every caller-supplied
message, `LogError` emits exactly one line, at informational severity, with
the fixed validation-error event type, the fixed invalid-data event code and
the fixed generic invalid-input message; the emitted line is independent of
the caller-supplied message argument. -/
theorem LogError_validation_fixed_line
    (c : ExecutionContextImpl) (text errorMessage m₁ m₂ : String) :
    (c.LogError (.validationError text) errorMessage).length = 1 ∧
    c.LogError (.validationError text) errorMessage =
      [{ level := .info,
         fields := c.logger.fields
           ++ [("eventType", EventTypeValidationErr),
               ("eventCode", EventCodeInvalidData), ("error", text)],
         message := MessageInvalidInputData }] ∧
    c.LogError (.validationError text) m₁ =
      c.LogError (.validationError text) m₂ := by
  refine ⟨rfl, ?_, rfl⟩
  simp [ExecutionContextImpl.LogError, ExecutionContextImpl.Logger,
    Logger.withStr]

/-! ### Lifecycle controller (`app.go`)

Environment outcomes (what the SQL driver, gorm, and the HTTP listener
return) are inputs; the functions return the traces of externally visible
actions (log lines, handle operations) together with their Go return
values. -/

/-- `strings.Contains(s, sub)`, computed structurally. -/
def listContainsSub : List Char → List Char → Bool
  | _, [] => true
  | [], _ :: _ => false
  | c :: cs, sub => (sub.isPrefixOf (c :: cs)) || listContainsSub cs sub

/-- `strings.Contains` on strings. -/
def strContains (s sub : String) : Bool := listContainsSub s.data sub.data

/-- `strings.ToLower`, modelled structurally over the character list. -/
def toLowerStr (s : String) : String := ⟨s.data.map Char.toLower⟩

/-- Opaque `*gorm.DB` handle. -/
abbrev GormDB : Type := Nat

/-- Opaque `*sql.DB` handle. -/
abbrev SqlDB : Type := Nat

/-- gorm logger modes selected by the `switch` in `initializeDB`. -/
inductive GormLogMode where
  | modeInfo
  | modeWarn
  | modeError
  | modeSilent
  deriving Repr, DecidableEq

/-- The `switch strings.ToLower(DB_LOG_LEVEL)` block of `initializeDB`,
with the fallback on `LOG_LEVEL == "trace"`. -/
def dbconfLogMode (dbLogLevel logLevel : String) : GormLogMode :=
  match toLowerStr dbLogLevel with
  | "info" => .modeInfo
  | "warn" => .modeWarn
  | "error" => .modeError
  | "silent" => .modeSilent
  | _ => if toLowerStr logLevel = "trace" then .modeInfo else .modeError

/-- The configuration keys `initializeDB`/`Stop` read. -/
structure AppConfig where
  dbRequired : Bool
  dbLogLevel : String
  logLevel : String
  namingSingular : Bool
  dbConnMaxLifetimeMin : Int
  dbMaxIdleConns : Int
  deriving Repr, DecidableEq

/-- Driver outcomes for one database-bootstrap attempt: the `sql.Open`
result, and the pair `(db, err)` that `gorm.Open` returns. -/
structure DBAttemptEnv where
  sqlOpen : Except String SqlDB
  gormDB : Option GormDB
  gormErr : Option String
  deriving Repr

/-- Externally visible actions of `initializeDB`. -/
inductive DBEvent where
  | dbconfBuilt (mode : GormLogMode) (singularNaming : Bool)
  | logPoolError (e : String)
  | setConnMaxLifetime (handle : Option SqlDB) (minutes : Int)
  | setMaxIdleConns (handle : Option SqlDB) (n : Int)
  | logConnRefused (e : String)
  | logDBConnected
  deriving Repr, DecidableEq

/-- The two shapes the bootstrap operation returns to the retry executor:
`return err` (plain, retryable) or `return retry.Stop{OriginalError: err}`
(terminal, wrapping the original — possibly nil — error). -/
inductive OpReturn where
  | plainErr (e : String)
  | stop (originalError : Option String)
  deriving Repr, DecidableEq

/-- One run of the closure passed to `retry.Do` in `initializeDB`: builds the
gorm config, opens the SQL pool (logging — and only logging — a pool-open
error, then calling the lifetime/idle-limit setters on the possibly-nil
handle), opens the gorm connection, and returns: the plain error when its
text contains "connection refused", a terminal `retry.Stop` wrapping the
(possibly nil) gorm error otherwise. Returns the event trace, the value the
closure assigned to the captured `db` variable, and the Go return value. -/
def dbAttempt (cfg : AppConfig) (env : DBAttemptEnv) :
    List DBEvent × Option GormDB × OpReturn :=
  let mode := dbconfLogMode cfg.dbLogLevel cfg.logLevel
  let ev₀ := [DBEvent.dbconfBuilt mode cfg.namingSingular]
  let sqlInfo :=
    match env.sqlOpen with
    | .ok h => (some h, ([] : List DBEvent))
    | .error e => (none, [DBEvent.logPoolError e])
  let sqlDB := sqlInfo.1
  let ev₁ := sqlInfo.2
  let ev₂ := [DBEvent.setConnMaxLifetime sqlDB cfg.dbConnMaxLifetimeMin,
              DBEvent.setMaxIdleConns sqlDB cfg.dbMaxIdleConns]
  match env.gormErr with
  | some e =>
      if strContains e "connection refused" then
        (ev₀ ++ ev₁ ++ ev₂ ++ [DBEvent.logConnRefused e], env.gormDB,
          .plainErr e)
      else
        (ev₀ ++ ev₁ ++ ev₂, env.gormDB, .stop (some e))
  | none => (ev₀ ++ ev₁ ++ ev₂, env.gormDB, .stop none)

/-- Modelled from the spec: `retry.Do` (§4.2) — the retry package is not
among the sources. Runs the operation up to the given number of remaining
attempts, sequentially; a terminal `retry.Stop` return stops immediately and
yields the wrapped (possibly nil) error unwrapped; a plain error is retried
after the fixed delay while attempts remain, and the last attempt's error is
returned once they are exhausted. Specialized to the bootstrap operation,
whose every path returns either a plain error or a `retry.Stop` (never a
bare nil), and which assigns the captured `db` variable on each attempt.
`idx` numbers the attempts so each one draws its own driver outcomes. -/
def retryLoop (cfg : AppConfig) (envs : Nat → DBAttemptEnv) (idx : Nat) :
    Nat → Option GormDB → List DBEvent →
    Option GormDB × List DBEvent × Option String
  | 0, db, trace => (db, trace, none)
  | rest + 1, _, trace =>
      match dbAttempt cfg (envs idx) with
      | (ev, db', ret) =>
        match ret with
        | .stop orig => (db', trace ++ ev, orig)
        | .plainErr e =>
            if rest = 0 then (db', trace ++ ev, some e)
            else retryLoop cfg envs (idx + 1) rest db' (trace ++ ev)

/-- `initializeDB`: when the database is required, runs the bootstrap
operation under `retry.Do(3, 15s, ...)`, then — with no check of the
returned error — assigns the captured `db` to `app.DB` and logs the
informational "Database connected!" line, returning the retry error. -/
def initializeDB (cfg : AppConfig) (envs : Nat → DBAttemptEnv) :
    Option GormDB × List DBEvent × Option String :=
  if cfg.dbRequired then
    match retryLoop cfg envs 0 3 none [] with
    | (db, trace, err) => (db, trace ++ [DBEvent.logDBConnected], err)
  else (none, [], none)

/-- Externally visible actions of `Stop`. -/
inductive StopEvent where
  | shutdown (timeoutSeconds : Nat)
  | dbClose
  deriving Repr, DecidableEq

/-- `Stop`: requests graceful shutdown with the fixed 2-minute window, then,
when `DB_REQUIRED` is set, obtains the underlying SQL handle from `app.DB`
and calls `Close` exactly when obtaining it returned a non-nil error.
`dbHandle` is the `(sqlDB, err)` outcome of `app.DB.DB()`. -/
def Stop (dbRequired : Bool) (dbHandle : Except String SqlDB) :
    List StopEvent :=
  [StopEvent.shutdown 120] ++
    (if dbRequired then
      match dbHandle with
      | .error _ => [StopEvent.dbClose]
      | .ok _ => []
    else [])

/-- Outcome of `ListenAndServe` / `ListenAndServeTLS`. -/
inductive ServeOutcome where
  | ok
  | serverClosed
  | failed (e : String)
  deriving Repr, DecidableEq

/-- Externally visible actions of `Start` / `StartSecure`. `fatal*` events
are `zerolog` `Fatal()` calls, which exit the process. -/
inductive StartEvent where
  | fatalTLSCertMissing
  | fatalTLSKeyMissing
  | listen
  | listenTLS
  | fatalServe
  deriving Repr, DecidableEq

/-- `StartSecure(tlsCert, tlsKey)`: fatal before listening when either path
is empty; otherwise serves TLS and is fatal on any non-nil listener error. -/
def StartSecure (tlsCert tlsKey : String) (serve : ServeOutcome) :
    List StartEvent :=
  if tlsCert = "" then [StartEvent.fatalTLSCertMissing]
  else if tlsKey = "" then [StartEvent.fatalTLSKeyMissing]
  else
    StartEvent.listenTLS ::
      (match serve with
       | .ok => []
       | .serverClosed => [StartEvent.fatalServe]
       | .failed _ => [StartEvent.fatalServe])

/-- `Start`: delegates to `StartSecure` when `ENABLE_TLS == "true"`;
otherwise serves plain HTTP, fatal on any listener error other than
`http.ErrServerClosed`. -/
def Start (enableTLS tlsCert tlsKey : String) (serve : ServeOutcome) :
    List StartEvent :=
  if enableTLS = "true" then StartSecure tlsCert tlsKey serve
  else
    StartEvent.listen ::
      (match serve with
       | .ok => []
       | .serverClosed => []
       | .failed _ => [StartEvent.fatalServe])

/-- C5: `Stop` first requests graceful shutdown with the fixed 2-minute
window; the database handle's `Close` is invoked exactly when the
database-required flag is set and obtaining the handle failed — never on the
path where the handle is obtained successfully. -/
theorem Stop_closes_db_only_when_handle_fails
    (dbRequired : Bool) (dbHandle : Except String SqlDB) :
    (Stop dbRequired dbHandle).head? = some (StopEvent.shutdown 120) ∧
    (StopEvent.dbClose ∈ Stop dbRequired dbHandle ↔
      dbRequired = true ∧ ∃ e, dbHandle = .error e) := by
  constructor
  · rfl
  · cases dbRequired <;> cases dbHandle <;> simp [Stop]

/-- C6 counterexample: in the TLS path a clean `http.ErrServerClosed` from
the listener is treated as fatal, refuting "non-fatal in both the plain and
the TLS serving paths". -/
theorem Start_tls_fatal_on_server_closed
    : StartEvent.fatalServe ∈
        Start "true" "cert.pem" "key.pem" ServeOutcome.serverClosed := by
  decide

/-- C6 amended: in the plain path a clean server-closed outcome is non-fatal
and any other listener error is fatal; in the TLS path (which `Start` enters
exactly when TLS is enabled) any non-nil listener outcome — server-closed
included — is fatal; and with TLS enabled an empty certificate or key path
is fatal before any listen attempt. -/
theorem Start_fatality_by_path
    (enableTLS tlsCert tlsKey e : String) (serve : ServeOutcome)
    (htls : enableTLS ≠ "true") (hcrt : tlsCert ≠ "") (hkey : tlsKey ≠ "") :
    StartEvent.fatalServe ∉ Start enableTLS tlsCert tlsKey .serverClosed ∧
    StartEvent.fatalServe ∈ Start enableTLS tlsCert tlsKey (.failed e) ∧
    Start "true" tlsCert tlsKey serve = StartSecure tlsCert tlsKey serve ∧
    StartEvent.fatalServe ∈ StartSecure tlsCert tlsKey .serverClosed ∧
    StartEvent.fatalServe ∈ StartSecure tlsCert tlsKey (.failed e) ∧
    StartSecure "" tlsKey serve = [StartEvent.fatalTLSCertMissing] ∧
    StartSecure tlsCert "" serve = [StartEvent.fatalTLSKeyMissing] := by
  refine ⟨?_, ?_, ?_, ?_, ?_, ?_, ?_⟩
  · simp [Start, htls]
  · simp [Start, htls]
  · simp [Start]
  · simp [StartSecure, hcrt, hkey]
  · simp [StartSecure, hcrt, hkey]
  · simp [StartSecure]
  · simp [StartSecure, hcrt]

/-- Witness for C6 (amended) at concrete inputs. -/
theorem Start_fatality_by_path_witness :
    StartEvent.fatalServe ∉ Start "false" "c.pem" "k.pem" .serverClosed ∧
    StartEvent.fatalServe ∈ Start "false" "c.pem" "k.pem" (.failed "boom") ∧
    Start "true" "c.pem" "k.pem" .serverClosed =
      StartSecure "c.pem" "k.pem" .serverClosed ∧
    StartEvent.fatalServe ∈ StartSecure "c.pem" "k.pem" .serverClosed ∧
    StartEvent.fatalServe ∈ StartSecure "c.pem" "k.pem" (.failed "boom") ∧
    StartSecure "" "k.pem" .serverClosed = [StartEvent.fatalTLSCertMissing] ∧
    StartSecure "c.pem" "" .serverClosed = [StartEvent.fatalTLSKeyMissing] :=
  Start_fatality_by_path "false" "c.pem" "k.pem" "boom" .serverClosed
    (by decide) (by decide) (by decide)

/-- C7: the bootstrap operation hands the retry executor a plain (retryable)
error exactly when the gorm-open error's text contains the substring
"connection refused"; every other outcome — success included — comes back as
the terminal `retry.Stop` wrapper carrying exactly the original (possibly
nil) gorm error. -/
theorem dbAttempt_connection_refused_sole_retryable
    (cfg : AppConfig) (env : DBAttemptEnv) :
    (∀ e, (dbAttempt cfg env).2.2 = OpReturn.plainErr e ↔
        env.gormErr = some e ∧ strContains e "connection refused" = true) ∧
    ((dbAttempt cfg env).2.2 = OpReturn.stop env.gormErr ∨
      ∃ e, (dbAttempt cfg env).2.2 = OpReturn.plainErr e) := by
  obtain ⟨so, gdb, gerr⟩ := env
  cases gerr with
  | none => simp [dbAttempt]
  | some e' =>
      by_cases hc : strContains e' "connection refused" = true
      · constructor
        · intro e
          constructor
          · intro he
            simp only [dbAttempt, hc, if_true] at he
            cases he
            exact ⟨rfl, hc⟩
          · rintro ⟨he, _⟩
            cases he
            simp [dbAttempt, hc]
        · right
          exact ⟨e', by simp [dbAttempt, hc]⟩
      · constructor
        · intro e
          constructor
          · intro he
            simp only [dbAttempt, hc, if_false] at he
            cases he
          · rintro ⟨he, hcc⟩
            cases he
            exact absurd hcc hc
        · left
          simp [dbAttempt, hc]

/-- C9: with the database required, `initializeDB` always — regardless of
the error the retry executor returned — assigns the captured (possibly nil)
connection to `app.DB` and emits the informational "Database connected!"
line; concretely there is a failing bootstrap (non-nil returned error, nil
connection) that still logs it. -/
theorem initializeDB_logs_connected_unconditionally
    (cfg : AppConfig) (envs : Nat → DBAttemptEnv) :
    DBEvent.logDBConnected ∈
      (initializeDB { cfg with dbRequired := true } envs).2.1 ∧
    (initializeDB { cfg with dbRequired := true } envs).1 =
      (retryLoop { cfg with dbRequired := true } envs 0 3 none []).1 ∧
    ∃ cfg' : AppConfig, ∃ envs' : Nat → DBAttemptEnv,
      cfg'.dbRequired = true ∧
      (initializeDB cfg' envs').2.2 ≠ none ∧
      (initializeDB cfg' envs').1 = none ∧
      DBEvent.logDBConnected ∈ (initializeDB cfg' envs').2.1 := by
  refine ⟨?_, ?_, ?_⟩
  · rcases h : retryLoop { cfg with dbRequired := true } envs 0 3 none [] with
      ⟨db, trace, err⟩
    simp [initializeDB, h]
  · rcases h : retryLoop { cfg with dbRequired := true } envs 0 3 none [] with
      ⟨db, trace, err⟩
    simp [initializeDB, h]
  · refine ⟨⟨true, "", "", false, 0, 0⟩,
      fun _ => ⟨Except.ok 0, none, some "boom"⟩, rfl, ?_, ?_, ?_⟩
    · decide
    · decide
    · decide

/-- C10: when `sql.Open` fails inside a bootstrap attempt, the error is only
logged — the attempt then proceeds to call the connection-lifetime and
idle-limit setters on the now-nil pool handle, and the attempt's assigned
connection and return value are exactly what they would have been had
`sql.Open` succeeded. -/
theorem dbAttempt_pool_error_only_logged
    (cfg : AppConfig) (env : DBAttemptEnv) (e : String)
    (h : env.sqlOpen = .error e) :
    (dbAttempt cfg env).1 =
      [DBEvent.dbconfBuilt (dbconfLogMode cfg.dbLogLevel cfg.logLevel)
         cfg.namingSingular,
       DBEvent.logPoolError e,
       DBEvent.setConnMaxLifetime none cfg.dbConnMaxLifetimeMin,
       DBEvent.setMaxIdleConns none cfg.dbMaxIdleConns]
      ++ (match env.gormErr with
          | some e' =>
              if strContains e' "connection refused" then
                [DBEvent.logConnRefused e']
              else []
          | none => []) ∧
    (dbAttempt cfg env).2 = (dbAttempt cfg { env with sqlOpen := .ok 0 }).2 := by
  obtain ⟨so, gdb, gerr⟩ := env
  simp only at h
  subst h
  cases gerr with
  | none => simp [dbAttempt]
  | some e' =>
      by_cases hc : strContains e' "connection refused" = true
      · simp [dbAttempt, hc]
      · simp [dbAttempt, hc]

/-- Witness for C10 at a concrete failing `sql.Open`. -/
theorem dbAttempt_pool_error_only_logged_witness :
    (dbAttempt ⟨true, "", "", false, 0, 0⟩
        ⟨Except.error "pool down", none, none⟩).1 =
      [DBEvent.dbconfBuilt GormLogMode.modeError false,
       DBEvent.logPoolError "pool down",
       DBEvent.setConnMaxLifetime none 0,
       DBEvent.setMaxIdleConns none 0] ∧
    (dbAttempt ⟨true, "", "", false, 0, 0⟩
        ⟨Except.error "pool down", none, none⟩).2 =
      (dbAttempt ⟨true, "", "", false, 0, 0⟩
        ⟨Except.ok 0, none, none⟩).2 := by
  have h := dbAttempt_pool_error_only_logged ⟨true, "", "", false, 0, 0⟩
    ⟨Except.error "pool down", none, none⟩ "pool down" rfl
  simpa using h

/-! ### Logging middleware (`loggingMiddleware`, `GetCorrelationIDFromRequest`) -/

/-- An inbound HTTP request: header map plus the two fields the middleware
logs. Go's `Header.Get` returns `""` for an absent key. -/
structure Request where
  headers : List (String × String)
  method : String
  requestURI : String
  deriving Repr, DecidableEq

/-- `r.Header.Get(k)`. -/
def headerGet (r : Request) (k : String) : String :=
  match r.headers.lookup k with
  | some v => v
  | none => ""

/-- `r.Header.Set(k, v)`: replace any existing value for the key. -/
def headerSet (r : Request) (k v : String) : Request :=
  { r with headers := (k, v) :: r.headers.filter (fun kv => !(kv.1 == k)) }

/-- `GetCorrelationIDFromRequest(r)`. -/
def GetCorrelationIDFromRequest (r : Request) : String :=
  headerGet r "X-Correlation-ID"

/-- Result of one middleware pass: the request the wrapped handler receives
(headers possibly updated in place), and the "Begin" and "End." lines. The
timestamp and elapsed-duration stamps are real-time effects and are omitted
from the field model. -/
structure MiddlewareResult where
  handlerRequest : Request
  beginLine : LogLine
  endLine : LogLine
  deriving Repr, DecidableEq

/-- `loggingMiddleware`: if the `X-Correlation-ID` header is empty, sets it
to a fresh UUID (externalized as `freshUUID`) on the inbound request before
the request-scoped logger is built and before the handler runs; then emits
"Begin", runs the handler (whose recorded status is an input), and emits
"End." — at error severity when the status is ≥ 500, informational
otherwise. -/
def loggingMiddleware (appName : String) (appLog : Logger) (r : Request)
    (freshUUID : String) (handlerStatus : Nat) : MiddlewareResult :=
  let r' :=
    if headerGet r "X-Correlation-ID" = "" then
      headerSet r "X-Correlation-ID" freshUUID
    else r
  let logger :=
    (((((appLog.withStr "service" appName).withStr
      "module" "Ingress").withStr
      "caller" (headerGet r' "X-Client")).withStr
      "correlationId" (headerGet r' "X-Correlation-ID")).withStr
      "method" r'.method).withStr
      "requestURI" r'.requestURI
  { handlerRequest := r',
    beginLine := { level := .info, fields := logger.fields, message := "Begin" },
    endLine :=
      { level := if handlerStatus ≥ 500 then .error else .info,
        fields := logger.fields ++ [("status", toString handlerStatus)],
        message := "End." } }

/-- C8: a request arriving with an empty `X-Correlation-ID` header gets a
fresh UUID written onto the header before the logger is built and before the
handler runs: the handler (and hence the root `ExecutionContext` it builds
via `GetCorrelationIDFromRequest`) reads back exactly that non-empty id, and
the same id is stamped on both the "Begin" and "End." lines. -/
theorem middleware_generates_and_propagates_correlation_id
    (appName : String) (appLog : Logger) (r : Request)
    (freshUUID : String) (handlerStatus : Nat)
    (token : Option JwtToken) (action : String) (ctxLog : Logger)
    (laterUUID : String)
    (hmissing : headerGet r "X-Correlation-ID" = "")
    (hfresh : trimSpace freshUUID ≠ "") (hne : freshUUID ≠ "") :
    GetCorrelationIDFromRequest
        (loggingMiddleware appName appLog r freshUUID
          handlerStatus).handlerRequest = freshUUID ∧
    GetCorrelationIDFromRequest
        (loggingMiddleware appName appLog r freshUUID
          handlerStatus).handlerRequest ≠ "" ∧
    ("correlationId", freshUUID) ∈
      (loggingMiddleware appName appLog r freshUUID
        handlerStatus).beginLine.fields ∧
    ("correlationId", freshUUID) ∈
      (loggingMiddleware appName appLog r freshUUID
        handlerStatus).endLine.fields ∧
    (NewExecutionContext token
        (GetCorrelationIDFromRequest
          (loggingMiddleware appName appLog r freshUUID
            handlerStatus).handlerRequest)
        action ctxLog laterUUID).CorrelationID = freshUUID := by
  have hv : headerGet (headerSet r "X-Correlation-ID" freshUUID)
      "X-Correlation-ID" = freshUUID := by
    simp [headerGet, headerSet, List.lookup]
  have hr' : (loggingMiddleware appName appLog r freshUUID
      handlerStatus).handlerRequest = headerSet r "X-Correlation-ID" freshUUID := by
    simp [loggingMiddleware, hmissing]
  have hset : GetCorrelationIDFromRequest
      (loggingMiddleware appName appLog r freshUUID
        handlerStatus).handlerRequest = freshUUID := by
    rw [hr']
    exact hv
  refine ⟨hset, ?_, ?_, ?_, ?_⟩
  · rw [hset]
    exact hne
  · simp [loggingMiddleware, hmissing, Logger.withStr, hv]
  · simp [loggingMiddleware, hmissing, Logger.withStr, hv]
  · rw [hset]
    simp [NewExecutionContext, hfresh]

/-- Witness for C8 at a concrete request with no correlation header. -/
theorem middleware_generates_and_propagates_correlation_id_witness :
    GetCorrelationIDFromRequest
        (loggingMiddleware "svc" ⟨[]⟩ ⟨[], "GET", "/api"⟩ "uuid-9"
          200).handlerRequest = "uuid-9" ∧
    GetCorrelationIDFromRequest
        (loggingMiddleware "svc" ⟨[]⟩ ⟨[], "GET", "/api"⟩ "uuid-9"
          200).handlerRequest ≠ "" ∧
    ("correlationId", "uuid-9") ∈
      (loggingMiddleware "svc" ⟨[]⟩ ⟨[], "GET", "/api"⟩ "uuid-9"
        200).beginLine.fields ∧
    ("correlationId", "uuid-9") ∈
      (loggingMiddleware "svc" ⟨[]⟩ ⟨[], "GET", "/api"⟩ "uuid-9"
        200).endLine.fields ∧
    (NewExecutionContext none
        (GetCorrelationIDFromRequest
          (loggingMiddleware "svc" ⟨[]⟩ ⟨[], "GET", "/api"⟩ "uuid-9"
            200).handlerRequest)
        "a" ⟨[]⟩ "uuid-later").CorrelationID = "uuid-9" :=
  middleware_generates_and_propagates_correlation_id "svc" ⟨[]⟩
    ⟨[], "GET", "/api"⟩ "uuid-9" 200 none "a" ⟨[]⟩ "uuid-later"
    (by decide) (by decide) (by decide)

end Microapp
